import Mathlib

/-!
Shallow embedding of `scripts/generate_hospital_data.py` and
`scripts/cloud_run/cloud_run_loader.py`.

Randomness (`random.randint`, `random.choice`, Faker calls) is modelled by
oracle structures: one field per independent random stream, indexed by the
position of the draw.  `random.randint(a, b)` on an empty range (`b < a`)
raises `ValueError` in Python; it is modelled as an `Option`-valued
function that returns `none` exactly there.  Floating-point draws
(`random.uniform`) are abstracted as opaque oracle-provided strings; no
verified property depends on them.  Generators that can raise return
`Option`; total generators return their data directly.
-/

/-- Python `str.zfill(w)`: left-pad with zeros to width `w`. -/
def zfill (w : Nat) (s : String) : String :=
  if w ≤ s.length then s else String.mk (List.replicate (w - s.length) '0') ++ s

/-- Decimal digit character. -/
def digitChar (d : Nat) : Char := Char.ofNat (48 + d)

/-- Fuelled decimal rendering of a natural number (models Python `str(i)`). -/
def natStrAux : Nat → Nat → List Char → List Char
  | 0, _, acc => acc
  | fuel + 1, n, acc =>
    if n < 10 then digitChar n :: acc
    else natStrAux fuel (n / 10) (digitChar (n % 10) :: acc)

/-- Python `str(n)` for a natural number. -/
def natStr (n : Nat) : String := String.mk (natStrAux (n + 1) n [])

/-- Python `s.lower()` (ASCII case folding, the only case arising here). -/
def pyLower (s : String) : String := String.mk (s.data.map Char.toLower)

/-- Python `s.endswith(t)`. -/
def pyEndsWith (s t : String) : Bool := t.data.isSuffixOf s.data

/-- Python `random.choice(l)` driven by an oracle value `v`; the lists it is
applied to are fixed non-empty literals, so the default is never used. -/
def pychoice {α : Type} (l : List α) (dflt : α) (v : Nat) : α :=
  l.getD (v % l.length) dflt

/-- Python `random.randint(lo, hi)` driven by an oracle value `v`.
Raises (returns `none`) on an empty range, exactly as `random.randint`
raises `ValueError` when `hi < lo`. -/
def randint (lo hi v : Nat) : Option Nat :=
  if hi < lo then none else some (lo + v % (hi + 1 - lo))

/-- Left-to-right effectful map over `Option`, modelling a Python list
comprehension whose element expression can raise. -/
def mapO {α β : Type} (f : α → Option β) : List α → Option (List β)
  | [] => some []
  | a :: l => (f a).bind fun b => (mapO f l).map fun bs => b :: bs

theorem mapO_some {α β : Type} {f : α → Option β} {g : α → β} :
    ∀ {l : List α}, (∀ a ∈ l, f a = some (g a)) → mapO f l = some (l.map g)
  | [], _ => rfl
  | a :: l, h => by
    have ha := h a (List.mem_cons_self a l)
    have hl := mapO_some (fun x hx => h x (List.mem_cons_of_mem a hx))
    simp [mapO, ha, hl]

theorem mapO_fun_some {α β : Type} (g : α → β) (l : List α) :
    mapO (fun a => some (g a)) l = some (l.map g) :=
  mapO_some (fun _ _ => rfl)

theorem mapO_none {α β : Type} {f : α → Option β} {a : α} :
    ∀ {l : List α}, a ∈ l → f a = none → mapO f l = none := by
  intro l
  induction l with
  | nil => intro h; cases h
  | cons b l ih =>
    intro hmem hf
    rcases List.mem_cons.mp hmem with h | h
    · subst h; simp [mapO, hf]
    · cases hb : f b with
      | none => simp [mapO, hb]
      | some v => simp [mapO, hb, ih h hf]

theorem mapO_isSome {α β : Type} {f : α → Option β} :
    ∀ {l : List α}, (∀ a ∈ l, (f a).isSome) → ∃ L, mapO f l = some L
  | [], _ => ⟨[], rfl⟩
  | a :: l, h => by
    obtain ⟨b, hb⟩ := Option.isSome_iff_exists.mp (h a (List.mem_cons_self a l))
    obtain ⟨L, hL⟩ :=
      mapO_isSome (fun x hx => h x (List.mem_cons_of_mem a hx)) (l := l)
    exact ⟨b :: L, by simp [mapO, hb, hL]⟩

theorem randint_le {lo hi : Nat} (h : lo ≤ hi) (v : Nat) :
    randint lo hi v = some (lo + v % (hi + 1 - lo)) := by
  simp [randint, Nat.not_lt.mpr h]

theorem randint_empty {lo hi : Nat} (h : hi < lo) (v : Nat) :
    randint lo hi v = none := by
  simp [randint, h]

/-! ## Generator: `generate_patients` -/

/-- Oracle for the random/Faker draws of `generate_patients`. -/
structure PatientsOracle where
  firstName : Nat → String
  lastName : Nat → String
  randomLetter : Nat → Char
  ssn : Nat → String
  phoneNumber : Nat → String
  gender : Nat → Nat
  dob : Nat → String
  address : Nat → String
  modifiedDate : Nat → String
  now : String

/-- The columns of the patients DataFrame plus the CSV filename written. -/
structure PatientsData where
  hospitalID : List String
  patientID : List String
  firstName : List String
  lastName : List String
  middleName : List String
  ssn : List String
  phoneNumber : List String
  gender : List String
  dob : List String
  address : List String
  modifiedDate : List String
  created_at : List String
  updated_at : List String
  deleted_at : List (Option String)
  filename : String

def patients_filename (hospital_id : String) : String :=
  pyLower hospital_id ++ "_patients.csv"

/-- `generate_patients(num_records, hospital_id)`. -/
def generate_patients (num_records : Nat) (hospital_id : String)
    (fk : PatientsOracle) : PatientsData :=
  { hospitalID := List.replicate num_records hospital_id
  , patientID := (List.range num_records).map
      (fun i => hospital_id ++ "-" ++ zfill 6 (natStr (i + 1)))
  , firstName := (List.range num_records).map fk.firstName
  , lastName := (List.range num_records).map fk.lastName
  , middleName := (List.range num_records).map
      (fun i => String.singleton (fk.randomLetter i).toUpper)
  , ssn := (List.range num_records).map fk.ssn
  , phoneNumber := (List.range num_records).map fk.phoneNumber
  , gender := (List.range num_records).map
      (fun i => pychoice ["Male", "Female"] "" (fk.gender i))
  , dob := (List.range num_records).map fk.dob
  , address := (List.range num_records).map fk.address
  , modifiedDate := (List.range num_records).map fk.modifiedDate
  , created_at := List.replicate num_records fk.now
  , updated_at := List.replicate num_records fk.now
  , deleted_at := List.replicate num_records none
  , filename := patients_filename hospital_id }

/-! ## Generator: `generate_departments` -/

def departments_list : List String :=
  [ "Emergency", "Cardiology", "Neurology", "Oncology", "Pediatrics"
  , "Orthopedics", "Dermatology", "Gastroenterology", "Urology"
  , "Radiology", "Anesthesiology", "Pathology", "Surgery"
  , "Pulmonology", "Nephrology", "Ophthalmology", "Gynecology"
  , "Psychiatry", "Endocrinology", "Rheumatology" ]

structure DepartmentsData where
  hospitalID : List String
  deptID : List String
  name : List String
  created_at : List String
  updated_at : List String
  deleted_at : List (Option String)
  filename : String

def departments_filename (hospital_id : String) : String :=
  pyLower hospital_id ++ "_departments.csv"

/-- `generate_departments(hospital_id)`; `now` models `datetime.now()`. -/
def generate_departments (hospital_id : String) (now : String) :
    DepartmentsData :=
  { hospitalID := List.replicate departments_list.length hospital_id
  , deptID := (List.range departments_list.length).map
      (fun i => "DEPT" ++ zfill 3 (natStr (i + 1)))
  , name := departments_list
  , created_at := List.replicate departments_list.length now
  , updated_at := List.replicate departments_list.length now
  , deleted_at := List.replicate departments_list.length none
  , filename := departments_filename hospital_id }

/-! ## Generator: `generate_encounters` -/

def encounter_types : List String :=
  ["Inpatient", "Outpatient", "Emergency", "Telemedicine", "Routine Checkup"]

structure EncountersOracle where
  cptPool : Nat → Nat
  patient : Nat → Nat
  encounterDate : Nat → String
  encounterType : Nat → Nat
  provider : Nat → Nat
  department : Nat → Nat
  procChoice : Nat → Nat
  insertedDate : Nat → String
  modifiedDate : Nat → String
  now : String

structure EncountersData where
  hospitalID : List String
  encounterID : List String
  patientID : List String
  encounterDate : List String
  encounterType : List String
  providerID : List String
  departmentID : List String
  procedureCode : List Nat
  insertedDate : List String
  modifiedDate : List String
  created_at : List String
  updated_at : List String
  deleted_at : List (Option String)
  filename : String

def encounters_filename (hospital_id : String) : String :=
  pyLower hospital_id ++ "_encounters.csv"

/-- `generate_encounters(num_encounters, hospital_id, num_patients)`.
Returns `none` when any `random.randint` draw raises (empty range). -/
def generate_encounters (num_encounters : Nat) (hospital_id : String)
    (num_patients : Nat) (o : EncountersOracle) : Option EncountersData := do
  let cpt_codes ←
    mapO (fun i => randint 10000 99999 (o.cptPool i)) (List.range 1000)
  let patientID ←
    mapO (fun i => (randint 1 num_patients (o.patient i)).map
        (fun r => hospital_id ++ "-" ++ zfill 6 (natStr r)))
      (List.range num_encounters)
  let providerID ←
    mapO (fun i => (randint 1 50 (o.provider i)).map
        (fun r => "PROV" ++ zfill 4 (natStr r)))
      (List.range num_encounters)
  let departmentID ←
    mapO (fun i => (randint 1 20 (o.department i)).map
        (fun r => "DEPT" ++ zfill 3 (natStr r)))
      (List.range num_encounters)
  pure
    { hospitalID := List.replicate num_encounters hospital_id
    , encounterID := (List.range num_encounters).map
        (fun i => "ENC" ++ zfill 6 (natStr (i + 1)))
    , patientID := patientID
    , encounterDate := (List.range num_encounters).map o.encounterDate
    , encounterType := (List.range num_encounters).map
        (fun i => pychoice encounter_types "" (o.encounterType i))
    , providerID := providerID
    , departmentID := departmentID
    , procedureCode := (List.range num_encounters).map
        (fun i => pychoice cpt_codes 0 (o.procChoice i))
    , insertedDate := (List.range num_encounters).map o.insertedDate
    , modifiedDate := (List.range num_encounters).map o.modifiedDate
    , created_at := List.replicate num_encounters o.now
    , updated_at := List.replicate num_encounters o.now
    , deleted_at := List.replicate num_encounters none
    , filename := encounters_filename hospital_id }

/-! ## Generator: `generate_transactions` -/

def amount_types : List String :=
  ["Co-pay", "Insurance", "Self-pay", "Medicaid", "Medicare"]

def visit_types : List String :=
  ["Routine", "Follow-up", "Emergency", "Consultation"]

def line_of_business : List String :=
  ["Commercial", "Medicaid", "Medicare", "Self-Pay"]

structure TransactionsOracle where
  icdA : Nat → Nat
  icdB : Nat → Nat
  cptPool : Nat → Nat
  encounter : Nat → Nat
  patient : Nat → Nat
  provider : Nat → Nat
  dept : Nat → Nat
  visitDate : Nat → String
  serviceDate : Nat → String
  paidDate : Nat → String
  visitType : Nat → Nat
  amount : Nat → String
  amountType : Nat → Nat
  paidAmount : Nat → String
  claim : Nat → Nat
  payor : Nat → Nat
  procChoice : Nat → Nat
  icdChoice : Nat → Nat
  lob : Nat → Nat
  medicaid : Nat → Nat
  medicare : Nat → Nat
  insertDate : Nat → String
  modifiedDate : Nat → String
  now : String

structure TransactionsData where
  hospitalID : List String
  transactionID : List String
  encounterID : List String
  patientID : List String
  providerID : List String
  deptID : List String
  visitDate : List String
  serviceDate : List String
  paidDate : List String
  visitType : List String
  amount : List String
  amountType : List String
  paidAmount : List String
  claimID : List String
  payorID : List String
  procedureCode : List Nat
  icdCode : List String
  lineOfBusiness : List String
  medicaidID : List String
  medicareID : List String
  insertDate : List String
  modifiedDate : List String
  created_at : List String
  updated_at : List String
  deleted_at : List (Option String)
  filename : String

def transactions_filename (hospital_id : String) : String :=
  pyLower hospital_id ++ "_transactions.csv"

/-- `generate_transactions(num_transactions, hospital_id, num_patients)`.
The `icd_codes` / `cpt_codes` pools are drawn before the column dict, the
columns then in dict order, exactly as in the Python source.  Returns
`none` when any `random.randint` draw raises (empty range). -/
def generate_transactions (num_transactions : Nat) (hospital_id : String)
    (num_patients : Nat) (o : TransactionsOracle) :
    Option TransactionsData := do
  let icd_codes ←
    mapO (fun i => (randint 10 99 (o.icdA i)).bind
        (fun a => (randint 0 9 (o.icdB i)).map
          (fun b => "I" ++ natStr a ++ "." ++ natStr b)))
      (List.range 100)
  let cpt_codes ←
    mapO (fun i => randint 10000 99999 (o.cptPool i)) (List.range 1000)
  let encounterID ←
    mapO (fun i => (randint 1 10000 (o.encounter i)).map
        (fun r => "ENC" ++ zfill 6 (natStr r)))
      (List.range num_transactions)
  let patientID ←
    mapO (fun i => (randint 1 num_patients (o.patient i)).map
        (fun r => hospital_id ++ "-" ++ zfill 6 (natStr r)))
      (List.range num_transactions)
  let providerID ←
    mapO (fun i => (randint 1 50 (o.provider i)).map
        (fun r => "PROV" ++ zfill 4 (natStr r)))
      (List.range num_transactions)
  let deptID ←
    mapO (fun i => (randint 1 20 (o.dept i)).map
        (fun r => "DEPT" ++ zfill 3 (natStr r)))
      (List.range num_transactions)
  let claimID ←
    mapO (fun i => (randint 100000 999999 (o.claim i)).map
        (fun r => "CLAIM" ++ natStr r))
      (List.range num_transactions)
  let payorID ←
    mapO (fun i => (randint 1000 9999 (o.payor i)).map
        (fun r => "PAYOR" ++ natStr r))
      (List.range num_transactions)
  let medicaidID ←
    mapO (fun i => (randint 10000 99999 (o.medicaid i)).map
        (fun r => "MEDI" ++ natStr r))
      (List.range num_transactions)
  let medicareID ←
    mapO (fun i => (randint 10000 99999 (o.medicare i)).map
        (fun r => "MCARE" ++ natStr r))
      (List.range num_transactions)
  pure
    { hospitalID := List.replicate num_transactions hospital_id
    , transactionID := (List.range num_transactions).map
        (fun i => "TRANS" ++ zfill 6 (natStr (i + 1)))
    , encounterID := encounterID
    , patientID := patientID
    , providerID := providerID
    , deptID := deptID
    , visitDate := (List.range num_transactions).map o.visitDate
    , serviceDate := (List.range num_transactions).map o.serviceDate
    , paidDate := (List.range num_transactions).map o.paidDate
    , visitType := (List.range num_transactions).map
        (fun i => pychoice visit_types "" (o.visitType i))
    , amount := (List.range num_transactions).map o.amount
    , amountType := (List.range num_transactions).map
        (fun i => pychoice amount_types "" (o.amountType i))
    , paidAmount := (List.range num_transactions).map o.paidAmount
    , claimID := claimID
    , payorID := payorID
    , procedureCode := (List.range num_transactions).map
        (fun i => pychoice cpt_codes 0 (o.procChoice i))
    , icdCode := (List.range num_transactions).map
        (fun i => pychoice icd_codes "" (o.icdChoice i))
    , lineOfBusiness := (List.range num_transactions).map
        (fun i => pychoice line_of_business "" (o.lob i))
    , medicaidID := medicaidID
    , medicareID := medicareID
    , insertDate := (List.range num_transactions).map o.insertDate
    , modifiedDate := (List.range num_transactions).map o.modifiedDate
    , created_at := List.replicate num_transactions o.now
    , updated_at := List.replicate num_transactions o.now
    , deleted_at := List.replicate num_transactions none
    , filename := transactions_filename hospital_id }

/-!
## Loader: `cloud_run_loader.py`

Database and filesystem effects are modelled by a `LoaderEnv` oracle that
says which external step succeeds, plus explicit state (current working
directory, files in the scratch directory).  Exceptions that escape a
function are `Except.error`; a caught exception turned into Python's
`(False, message)` pair is an `.ok` result with `success := false`.
Result records carry the effect flags the source performs (rollback,
connection close) so that the error-handling contract can be stated.
-/

structure LoaderEnv where
  db_host : Option String
  db_name : Option String
  db_user : Option String
  db_password : Option String
  connectOk : Bool
  connectErr : String
  ddlOk : Bool
  ddlErr : String
  truncOk : Bool
  truncErr : String
  genOk : Bool
  genErr : String
  copyOk : Bool
  copyErr : String
deriving DecidableEq

/-- Python `not os.environ.get(var)`: true when unset or empty. -/
def envFalsy : Option String → Bool
  | none => true
  | some s => s == ""

/-- The `missing_vars` list of `get_db_connection`, in source order. -/
def missing_vars (e : LoaderEnv) : List String :=
  (([("DB_HOST", e.db_host), ("DB_NAME", e.db_name),
     ("DB_USER", e.db_user), ("DB_PASSWORD", e.db_password)]).filter
    (fun p => envFalsy p.2)).map (fun p => p.1)

def missing_vars_message (e : LoaderEnv) : String :=
  "Missing required environment variables: " ++
    String.intercalate ", " (missing_vars e)

/-- `get_db_connection()`: raises `EnvironmentError` when a required
variable is falsy, re-raises a connect failure, else yields a connection. -/
def get_db_connection (e : LoaderEnv) : Except String Unit :=
  if missing_vars e ≠ [] then .error (missing_vars_message e)
  else if e.connectOk then .ok () else .error e.connectErr

/-- Outcome of `setup_database` / `truncate_tables`: the returned
`(success, message)` pair plus the effects performed on the connection. -/
structure OpResult where
  success : Bool
  message : String
  rolledBack : Bool
  committed : Bool
  connClosed : Bool
deriving DecidableEq

/-- `setup_database()`.  `get_db_connection` is called before the `try`,
so its exceptions propagate; a DDL failure inside the `try` is caught,
rolled back, and returned as `(False, message)`; `finally` closes. -/
def setup_database (e : LoaderEnv) : Except String OpResult :=
  match get_db_connection e with
  | .error m => .error m
  | .ok _ =>
    if e.ddlOk then
      .ok { success := true
          , message := "Database setup completed successfully."
          , rolledBack := false, committed := true, connClosed := true }
    else
      .ok { success := false
          , message := "Database setup failed: " ++ e.ddlErr
          , rolledBack := true, committed := false, connClosed := true }

/-- `truncate_tables()`: same shape as `setup_database`. -/
def truncate_tables (e : LoaderEnv) : Except String OpResult :=
  match get_db_connection e with
  | .error m => .error m
  | .ok _ =>
    if e.truncOk then
      .ok { success := true
          , message := "Tables truncated successfully."
          , rolledBack := false, committed := true, connClosed := true }
    else
      .ok { success := false
          , message := "Truncate failed: " ++ e.truncErr
          , rolledBack := true, committed := false, connClosed := true }

/-- Outcome of `load_data`: `(success, message)`, the final working
directory, the files left in the scratch directory, and the fate of the
connection opened inside the load `try` block. -/
structure LoadResult where
  success : Bool
  message : String
  cwdFinal : String
  files : List String
  loadConnOpened : Bool
  loadConnClosed : Bool
  loadRolledBack : Bool
deriving DecidableEq

/-- The six CSVs written by `generate_hospital_data.main()` with its fixed
configuration (`HOSPITAL_ID = "HOSP1"`), in generation order. -/
def generatedFiles : List String :=
  [ "hospitals.csv"
  , departments_filename "HOSP1"
  , "hosp1_providers.csv"
  , patients_filename "HOSP1"
  , encounters_filename "HOSP1"
  , transactions_filename "HOSP1" ]

/-- The body of `load_data` from `os.chdir('/tmp')` on: the `try` block
(generation, connection, COPY, commit, close, CSV cleanup), the
`except` that converts any exception into `(False, message)`, and the
`finally` that restores the working directory.  A generation failure is
modelled as raising before files are written.  Note that on a caught
failure no rollback and no `conn.close()` happens in the source. -/
def load_phase (e : LoaderEnv) (original_cwd : String)
    (files0 : List String) : LoadResult :=
  if !e.genOk then
    { success := false, message := "Data loading failed: " ++ e.genErr
    , cwdFinal := original_cwd, files := files0
    , loadConnOpened := false, loadConnClosed := false
    , loadRolledBack := false }
  else
    let files1 := files0 ++ generatedFiles
    match get_db_connection e with
    | .error m =>
      { success := false, message := "Data loading failed: " ++ m
      , cwdFinal := original_cwd, files := files1
      , loadConnOpened := false, loadConnClosed := false
      , loadRolledBack := false }
    | .ok _ =>
      if e.copyOk then
        { success := true
        , message := "Data loading completed successfully."
        , cwdFinal := original_cwd
        , files := files1.filter (fun f => !(pyEndsWith f ".csv"))
        , loadConnOpened := true, loadConnClosed := true
        , loadRolledBack := false }
      else
        { success := false, message := "Data loading failed: " ++ e.copyErr
        , cwdFinal := original_cwd, files := files1
        , loadConnOpened := true, loadConnClosed := false
        , loadRolledBack := false }

/-- `load_data(truncate)`.  The optional truncate runs outside the `try`,
so an exception it raises propagates; a `(False, msg)` truncate result is
returned early, before the working-directory change. -/
def load_data (truncate : Bool) (e : LoaderEnv) (cwd0 : String)
    (files0 : List String) : Except String LoadResult :=
  if truncate then
    match truncate_tables e with
    | .error m => .error m
    | .ok r =>
      if r.success then .ok (load_phase e cwd0 files0)
      else
        .ok { success := false, message := r.message
            , cwdFinal := cwd0, files := files0
            , loadConnOpened := false, loadConnClosed := false
            , loadRolledBack := false }
  else .ok (load_phase e cwd0 files0)

/-! ## HTTP dispatcher: `main(request)` -/

/-- An HTTP request: query args and optional parsed JSON body. -/
structure Request where
  args : List (String × String)
  json : Option (List (String × String))

def lookupKey (l : List (String × String)) (k : String) : Option String :=
  (l.find? (fun p => p.1 == k)).map (fun p => p.2)

/-- The `action` extraction: query args first (when truthy and holding
the key), then the JSON body (same test), else `None`. -/
def getAction (r : Request) : Option String :=
  if r.args ≠ [] ∧ (lookupKey r.args "action").isSome then
    lookupKey r.args "action"
  else
    match r.json with
    | none => none
    | some j =>
      if j ≠ [] ∧ (lookupKey j "action").isSome then lookupKey j "action"
      else none

/-- The dispatcher's JSON response: HTTP status code, `status` field,
`message` field, plus a flag recording whether `load_data` was invoked. -/
structure HttpResponse where
  statusCode : Nat
  status : String
  message : String
  loadInvoked : Bool
deriving DecidableEq

def invalid_action_message : String :=
  "Invalid or missing action. Use \x27setup_db\x27, \x27load_data\x27, or \x27setup_and_load\x27."

/-- The HTTP entry point `main(request)`.  An uncaught exception from an
operation is `Except.error` (the framework's default 500). -/
def main_dispatch (r : Request) (e : LoaderEnv) (cwd0 : String)
    (files0 : List String) : Except String HttpResponse :=
  let action := getAction r
  if action = some "setup_db" then
    match setup_database e with
    | .error m => .error m
    | .ok res =>
      .ok { statusCode := if res.success then 200 else 500
          , status := if res.success then "success" else "error"
          , message := res.message, loadInvoked := false }
  else if action = some "load_data" then
    match load_data true e cwd0 files0 with
    | .error m => .error m
    | .ok res =>
      .ok { statusCode := if res.success then 200 else 500
          , status := if res.success then "success" else "error"
          , message := res.message, loadInvoked := true }
  else if action = some "setup_and_load" then
    match setup_database e with
    | .error m => .error m
    | .ok res =>
      if !res.success then
        .ok { statusCode := 500, status := "error"
            , message := res.message, loadInvoked := false }
      else
        match load_data true e cwd0 files0 with
        | .error m => .error m
        | .ok res2 =>
          .ok { statusCode := if res2.success then 200 else 500
              , status := if res2.success then "success" else "error"
              , message := res2.message, loadInvoked := true }
  else
    .ok { statusCode := 400, status := "error"
        , message := invalid_action_message, loadInvoked := false }

/-! ## Concrete fixtures used to instantiate the theorems -/

def patientsOracle0 : PatientsOracle :=
  { firstName := fun _ => "", lastName := fun _ => ""
  , randomLetter := fun _ => 'a', ssn := fun _ => ""
  , phoneNumber := fun _ => "", gender := fun _ => 0
  , dob := fun _ => "", address := fun _ => ""
  , modifiedDate := fun _ => "", now := "" }

def encountersOracle0 : EncountersOracle :=
  { cptPool := fun _ => 0, patient := fun _ => 0
  , encounterDate := fun _ => "", encounterType := fun _ => 0
  , provider := fun _ => 0, department := fun _ => 0
  , procChoice := fun _ => 0, insertedDate := fun _ => ""
  , modifiedDate := fun _ => "", now := "" }

def transactionsOracle0 : TransactionsOracle :=
  { icdA := fun _ => 0, icdB := fun _ => 0, cptPool := fun _ => 0
  , encounter := fun _ => 0, patient := fun _ => 0
  , provider := fun _ => 0, dept := fun _ => 0
  , visitDate := fun _ => "", serviceDate := fun _ => ""
  , paidDate := fun _ => "", visitType := fun _ => 0
  , amount := fun _ => "", amountType := fun _ => 0
  , paidAmount := fun _ => "", claim := fun _ => 0
  , payor := fun _ => 0, procChoice := fun _ => 0
  , icdChoice := fun _ => 0, lob := fun _ => 0
  , medicaid := fun _ => 0, medicare := fun _ => 0
  , insertDate := fun _ => "", modifiedDate := fun _ => ""
  , now := "" }

def envOk : LoaderEnv :=
  { db_host := some "h", db_name := some "n"
  , db_user := some "u", db_password := some "p"
  , connectOk := true, connectErr := "connect refused"
  , ddlOk := true, ddlErr := "syntax error in ddl"
  , truncOk := true, truncErr := "relation does not exist"
  , genOk := true, genErr := "faker failure"
  , copyOk := true, copyErr := "malformed csv row" }

def envCopyFail : LoaderEnv := { envOk with copyOk := false }

def envMissingHost : LoaderEnv := { envOk with db_host := none }

def envDdlFail : LoaderEnv := { envOk with ddlOk := false }

/-! ## Claim theorems -/

/-- C1: for every `n ≥ 0` and hospital id `hid`, `generate_patients(n, hid)`
produces exactly `n` rows (every DataFrame column has length `n`), the
`PatientID` column is the sequential list `{hid}-000001 .. {hid}-{n:06d}`
in order, and `n = 0` yields empty columns (a header-only file) — the
function is total, so no error is raised. -/
theorem generate_patients_sequential_ids (n : Nat) (hid : String)
    (fk : PatientsOracle) :
    (generate_patients n hid fk).patientID.length = n ∧
    (∀ i, i < n →
      ((generate_patients n hid fk).patientID)[i]? =
        some (hid ++ "-" ++ zfill 6 (natStr (i + 1)))) ∧
    (generate_patients 0 hid fk).patientID = [] ∧
    (generate_patients n hid fk).hospitalID.length = n ∧
    (generate_patients n hid fk).firstName.length = n ∧
    (generate_patients n hid fk).lastName.length = n ∧
    (generate_patients n hid fk).middleName.length = n ∧
    (generate_patients n hid fk).ssn.length = n ∧
    (generate_patients n hid fk).phoneNumber.length = n ∧
    (generate_patients n hid fk).gender.length = n ∧
    (generate_patients n hid fk).dob.length = n ∧
    (generate_patients n hid fk).address.length = n ∧
    (generate_patients n hid fk).modifiedDate.length = n ∧
    (generate_patients n hid fk).created_at.length = n ∧
    (generate_patients n hid fk).updated_at.length = n ∧
    (generate_patients n hid fk).deleted_at.length = n := by
  refine ⟨by simp [generate_patients], ?_, by simp [generate_patients],
    ?_, ?_, ?_, ?_, ?_, ?_, ?_, ?_, ?_, ?_, ?_, ?_, ?_⟩ <;>
    try simp [generate_patients]
  intro i hi
  simp [generate_patients, List.getElem?_range, hi]

/-- Witness for C1 at `n = 2`, `hid = "HOSP1"`: the second patient id is
`HOSP1-000002`. -/
theorem generate_patients_sequential_ids_witness :
    ((generate_patients 2 "HOSP1" patientsOracle0).patientID)[1]? =
      some "HOSP1-000002" := by
  have h := (generate_patients_sequential_ids 2 "HOSP1"
    patientsOracle0).2.1 1 (by decide)
  have hs : ("HOSP1" ++ "-" ++ zfill 6 (natStr 2) : String) =
      "HOSP1-000002" := by decide
  rw [hs] at h
  exact h

theorem departments_list_length : departments_list.length = 20 := by decide

theorem departments_deptID_eval :
    (List.range departments_list.length).map
      (fun i => "DEPT" ++ zfill 3 (natStr (i + 1))) =
    [ "DEPT001", "DEPT002", "DEPT003", "DEPT004", "DEPT005"
    , "DEPT006", "DEPT007", "DEPT008", "DEPT009", "DEPT010"
    , "DEPT011", "DEPT012", "DEPT013", "DEPT014", "DEPT015"
    , "DEPT016", "DEPT017", "DEPT018", "DEPT019", "DEPT020" ] := by decide

/-- C2: for every hospital id, `generate_departments` produces exactly 20
rows, the `DeptID` column is `DEPT001 .. DEPT020` in order, and the `Name`
column is the fixed ordered 20-name list, regardless of any parameter. -/
theorem generate_departments_fixed_rows (hid : String) (now : String) :
    (generate_departments hid now).deptID =
      [ "DEPT001", "DEPT002", "DEPT003", "DEPT004", "DEPT005"
      , "DEPT006", "DEPT007", "DEPT008", "DEPT009", "DEPT010"
      , "DEPT011", "DEPT012", "DEPT013", "DEPT014", "DEPT015"
      , "DEPT016", "DEPT017", "DEPT018", "DEPT019", "DEPT020" ] ∧
    (generate_departments hid now).name = departments_list ∧
    (generate_departments hid now).name.length = 20 ∧
    (generate_departments hid now).deptID.length = 20 ∧
    (generate_departments hid now).hospitalID.length = 20 ∧
    (generate_departments hid now).created_at.length = 20 ∧
    (generate_departments hid now).updated_at.length = 20 ∧
    (generate_departments hid now).deleted_at.length = 20 := by
  refine ⟨departments_deptID_eval, rfl, ?_, ?_, ?_, ?_, ?_, ?_⟩ <;>
    simp [generate_departments, departments_list_length]

/-- C9 counterexample: at `hid = "HOSP1"` the written filename is
`hosp1_departments.csv`, not `HOSP1_departments.csv` — the hospital id is
lowercased, not used exactly as passed. -/
theorem departments_filename_not_as_passed_cex :
    (generate_departments "HOSP1" "").filename = "hosp1_departments.csv" ∧
    (generate_departments "HOSP1" "").filename ≠ "HOSP1_departments.csv" := by
  decide

/-- C9 (amended): `generate_departments(hid)` writes its CSV to
`{hid.lower()}_departments.csv` — the hospital id appears lowercased in
the filename, not exactly as passed. -/
theorem departments_filename_lowercased (hid : String) (now : String) :
    (generate_departments hid now).filename =
      pyLower hid ++ "_departments.csv" := rfl

/-- For `num_patients ≥ 1`, `generate_transactions` succeeds and its
`EncounterID` column is the `randint(1, 10000)` draw stream, formatted. -/
theorem generate_transactions_encounterID (n : Nat) (hid : String) (p : Nat)
    (o : TransactionsOracle) (hp : 1 ≤ p) :
    ∃ d, generate_transactions n hid p o = some d ∧
      d.encounterID = (List.range n).map
        (fun i => "ENC" ++ zfill 6 (natStr (1 + o.encounter i % 10000))) := by
  have hp' : ¬ p < 1 := by omega
  obtain ⟨icd, hicd⟩ := mapO_isSome
    (f := fun i => (randint 10 99 (o.icdA i)).bind
        (fun a => (randint 0 9 (o.icdB i)).map
          (fun b => "I" ++ natStr a ++ "." ++ natStr b)))
    (l := List.range 100) (fun a _ => by simp [randint])
  obtain ⟨cpt, hcpt⟩ := mapO_isSome
    (f := fun i => randint 10000 99999 (o.cptPool i))
    (l := List.range 1000) (fun a _ => by simp [randint])
  have henc : mapO (fun i => (randint 1 10000 (o.encounter i)).map
        (fun r => "ENC" ++ zfill 6 (natStr r))) (List.range n) =
      some ((List.range n).map
        (fun i => "ENC" ++ zfill 6 (natStr (1 + o.encounter i % 10000)))) :=
    mapO_some (fun a _ => by simp [randint])
  obtain ⟨pat, hpat⟩ := mapO_isSome
    (f := fun i => (randint 1 p (o.patient i)).map
        (fun r => hid ++ "-" ++ zfill 6 (natStr r)))
    (l := List.range n) (fun a _ => by simp [randint, hp'])
  obtain ⟨prov, hprov⟩ := mapO_isSome
    (f := fun i => (randint 1 50 (o.provider i)).map
        (fun r => "PROV" ++ zfill 4 (natStr r)))
    (l := List.range n) (fun a _ => by simp [randint])
  obtain ⟨dep, hdep⟩ := mapO_isSome
    (f := fun i => (randint 1 20 (o.dept i)).map
        (fun r => "DEPT" ++ zfill 3 (natStr r)))
    (l := List.range n) (fun a _ => by simp [randint])
  obtain ⟨clm, hclm⟩ := mapO_isSome
    (f := fun i => (randint 100000 999999 (o.claim i)).map
        (fun r => "CLAIM" ++ natStr r))
    (l := List.range n) (fun a _ => by simp [randint])
  obtain ⟨pay, hpay⟩ := mapO_isSome
    (f := fun i => (randint 1000 9999 (o.payor i)).map
        (fun r => "PAYOR" ++ natStr r))
    (l := List.range n) (fun a _ => by simp [randint])
  obtain ⟨mcd, hmcd⟩ := mapO_isSome
    (f := fun i => (randint 10000 99999 (o.medicaid i)).map
        (fun r => "MEDI" ++ natStr r))
    (l := List.range n) (fun a _ => by simp [randint])
  obtain ⟨mcr, hmcr⟩ := mapO_isSome
    (f := fun i => (randint 10000 99999 (o.medicare i)).map
        (fun r => "MCARE" ++ natStr r))
    (l := List.range n) (fun a _ => by simp [randint])
  unfold generate_transactions
  simp only [hicd, hcpt, henc, hpat, hprov, hdep, hclm, hpay, hmcd, hmcr,
    Option.bind_eq_bind', Option.some_bind']
  exact ⟨_, rfl, rfl⟩

/-- C8: for every `n`, hospital id, and `numPatients ≥ 1` (so the call
does not raise on the `PatientID` draw), each `EncounterID` of
`generate_transactions` is `ENC{k:06d}` for some `k` in the fixed range
`[1, 10000]`; the `EncounterID` column is identical for any other
`numPatients` value under the same randomness; and every `k` in the range
is attained by some `randint(1, 10000)` draw. -/
theorem transactions_encounter_fixed_range (n : Nat) (hid : String)
    (p : Nat) (o : TransactionsOracle) (hp : 1 ≤ p) :
    ∃ d, generate_transactions n hid p o = some d ∧
      (∀ s ∈ d.encounterID,
        ∃ k, 1 ≤ k ∧ k ≤ 10000 ∧ s = "ENC" ++ zfill 6 (natStr k)) ∧
      (∀ q, 1 ≤ q → ∃ e, generate_transactions n hid q o = some e ∧
        e.encounterID = d.encounterID) ∧
      (∀ k, 1 ≤ k → k ≤ 10000 → randint 1 10000 (k - 1) = some k) := by
  obtain ⟨d, hd, hcol⟩ := generate_transactions_encounterID n hid p o hp
  refine ⟨d, hd, ?_, ?_, ?_⟩
  · intro s hs
    rw [hcol] at hs
    obtain ⟨i, _, rfl⟩ := List.mem_map.mp hs
    refine ⟨1 + o.encounter i % 10000, by omega, ?_, rfl⟩
    have := Nat.mod_lt (o.encounter i) (show 0 < 10000 by omega)
    omega
  · intro q hq
    obtain ⟨e, he, hecol⟩ := generate_transactions_encounterID n hid q o hq
    exact ⟨e, he, by rw [hecol, hcol]⟩
  · intro k hk1 hk2
    rw [randint_le (by omega)]
    exact congrArg some (by omega)

/-- Witness for C8 at `n = 1`, `hid = "HOSP1"`, `numPatients = 5`. -/
theorem transactions_encounter_fixed_range_witness :
    ∃ d, generate_transactions 1 "HOSP1" 5 transactionsOracle0 = some d ∧
      (∀ s ∈ d.encounterID,
        ∃ k, 1 ≤ k ∧ k ≤ 10000 ∧ s = "ENC" ++ zfill 6 (natStr k)) ∧
      (∀ q, 1 ≤ q →
        ∃ e, generate_transactions 1 "HOSP1" q transactionsOracle0 = some e ∧
          e.encounterID = d.encounterID) ∧
      (∀ k, 1 ≤ k → k ≤ 10000 → randint 1 10000 (k - 1) = some k) :=
  transactions_encounter_fixed_range 1 "HOSP1" 5 transactionsOracle0
    (by decide)

/-- C10: for every positive row count, `generate_encounters` and
`generate_transactions` with `num_patients = 0` raise (`randint(1, 0)` is
an empty range), so the no-error-on-empty-input behaviour does not extend
to the `num_patients` parameter. -/
theorem zero_num_patients_raises (n : Nat) (hid : String)
    (oe : EncountersOracle) (ot : TransactionsOracle) (hn : 1 ≤ n) :
    generate_encounters n hid 0 oe = none ∧
    generate_transactions n hid 0 ot = none := by
  have h0 : (0 : Nat) ∈ List.range n := List.mem_range.mpr (by omega)
  constructor
  · obtain ⟨cpt, hcpt⟩ := mapO_isSome
      (f := fun i => randint 10000 99999 (oe.cptPool i))
      (l := List.range 1000) (fun a _ => by simp [randint])
    have hpat0 : mapO (fun i => (randint 1 0 (oe.patient i)).map
          (fun r => hid ++ "-" ++ zfill 6 (natStr r)))
        (List.range n) = none :=
      mapO_none h0 (by simp [randint])
    unfold generate_encounters
    simp only [hcpt, hpat0, Option.bind_eq_bind', Option.some_bind',
      Option.none_bind']
  · obtain ⟨icd, hicd⟩ := mapO_isSome
      (f := fun i => (randint 10 99 (ot.icdA i)).bind
          (fun a => (randint 0 9 (ot.icdB i)).map
            (fun b => "I" ++ natStr a ++ "." ++ natStr b)))
      (l := List.range 100) (fun a _ => by simp [randint])
    obtain ⟨cpt, hcpt⟩ := mapO_isSome
      (f := fun i => randint 10000 99999 (ot.cptPool i))
      (l := List.range 1000) (fun a _ => by simp [randint])
    obtain ⟨enc, henc⟩ := mapO_isSome
      (f := fun i => (randint 1 10000 (ot.encounter i)).map
          (fun r => "ENC" ++ zfill 6 (natStr r)))
      (l := List.range n) (fun a _ => by simp [randint])
    have hpat0 : mapO (fun i => (randint 1 0 (ot.patient i)).map
          (fun r => hid ++ "-" ++ zfill 6 (natStr r)))
        (List.range n) = none :=
      mapO_none h0 (by simp [randint])
    unfold generate_transactions
    simp only [hicd, hcpt, henc, hpat0, Option.bind_eq_bind',
      Option.some_bind', Option.none_bind']

/-- Witness for C10 at `n = 1`, `hid = "HOSP1"`. -/
theorem zero_num_patients_raises_witness :
    generate_encounters 1 "HOSP1" 0 encountersOracle0 = none ∧
    generate_transactions 1 "HOSP1" 0 transactionsOracle0 = none :=
  zero_num_patients_raises 1 "HOSP1" encountersOracle0 transactionsOracle0
    (by decide)

/-- C3 counterexample: with all environment variables present, a working
connection and a COPY failure, `load_data` returns `(False, message)` but
neither rolls back nor closes the connection it opened — the claim that
every operational failure closes the connection is false for `load_data`. -/
theorem load_data_leaves_connection_open_cex :
    ∃ r, load_data true envCopyFail "/w" [] = Except.ok r ∧
      r.success = false ∧ r.loadConnOpened = true ∧
      r.loadConnClosed = false ∧ r.loadRolledBack = false :=
  ⟨_, rfl, rfl, rfl, rfl, rfl⟩

/-- C3 (amended): with connection parameters present and a working
connection, a DDL failure in `setup_database` and a truncate failure in
`truncate_tables` are caught, rolled back, the connection is closed and
`(False, message)` is returned; a generation or load failure inside
`load_data` is caught and returned as `(False, message)` without
re-raising, but `load_data` performs no rollback and does not close the
connection it opened (on a generation failure no connection was opened). -/
theorem operation_error_handling (e : LoaderEnv) (cwd : String)
    (fs : List String) (hm : missing_vars e = [])
    (hc : e.connectOk = true) :
    (e.ddlOk = false →
      setup_database e = Except.ok
        { success := false
        , message := "Database setup failed: " ++ e.ddlErr
        , rolledBack := true, committed := false, connClosed := true }) ∧
    (e.truncOk = false →
      truncate_tables e = Except.ok
        { success := false
        , message := "Truncate failed: " ++ e.truncErr
        , rolledBack := true, committed := false, connClosed := true }) ∧
    (e.truncOk = true → e.genOk = true → e.copyOk = false →
      load_data true e cwd fs = Except.ok
        { success := false
        , message := "Data loading failed: " ++ e.copyErr
        , cwdFinal := cwd, files := fs ++ generatedFiles
        , loadConnOpened := true, loadConnClosed := false
        , loadRolledBack := false }) ∧
    (e.truncOk = true → e.genOk = false →
      load_data true e cwd fs = Except.ok
        { success := false
        , message := "Data loading failed: " ++ e.genErr
        , cwdFinal := cwd, files := fs
        , loadConnOpened := false, loadConnClosed := false
        , loadRolledBack := false }) := by
  have hg : get_db_connection e = Except.ok () := by
    simp [get_db_connection, hm, hc]
  refine ⟨?_, ?_, ?_, ?_⟩
  · intro hd; simp [setup_database, hg, hd]
  · intro ht; simp [truncate_tables, hg, ht]
  · intro ht hgen hcopy
    simp [load_data, truncate_tables, hg, ht, load_phase, hgen, hcopy]
  · intro ht hgen
    simp [load_data, truncate_tables, hg, ht, load_phase, hgen]

/-- Witness for C3 (amended) at the concrete environment with a COPY
failure. -/
theorem operation_error_handling_witness :
    envCopyFail.truncOk = true ∧ envCopyFail.genOk = true ∧
    envCopyFail.copyOk = false ∧
    load_data true envCopyFail "/w" ["keep.txt"] = Except.ok
      { success := false
      , message := "Data loading failed: " ++ envCopyFail.copyErr
      , cwdFinal := "/w", files := ["keep.txt"] ++ generatedFiles
      , loadConnOpened := true, loadConnClosed := false
      , loadRolledBack := false } :=
  ⟨rfl, rfl, rfl,
    (operation_error_handling envCopyFail "/w" ["keep.txt"] rfl
      rfl).2.2.1 rfl rfl rfl⟩

/-- Helper: `load_phase` always restores the working directory, and on
success no `.csv` file survives the cleanup. -/
theorem load_phase_spec (e : LoaderEnv) (cwd : String)
    (fs : List String) :
    (load_phase e cwd fs).cwdFinal = cwd ∧
    ((load_phase e cwd fs).success = true →
      ∀ f ∈ (load_phase e cwd fs).files, pyEndsWith f ".csv" = false) := by
  unfold load_phase
  by_cases hgen : e.genOk
  · cases hgc : get_db_connection e with
    | error m => simp [hgen, hgc]
    | ok u =>
      by_cases hcopy : e.copyOk
      · simp only [hgen, hgc, hcopy]
        refine ⟨rfl, fun _ f hf => ?_⟩
        have := (List.mem_filter.mp hf).2
        simpa using this
      · simp [hgen, hgc, hcopy]
  · simp [hgen]

/-- C4 counterexample: a failed load (COPY failure) leaves the generated
CSVs in the scratch directory — `hospitals.csv` is still present and is a
`.csv` file, so not all generated CSVs are deleted on failure. -/
theorem load_data_failure_keeps_csvs_cex :
    ∃ r, load_data true envCopyFail "/w" [] = Except.ok r ∧
      r.success = false ∧ "hospitals.csv" ∈ r.files ∧
      pyEndsWith "hospitals.csv" ".csv" = true :=
  ⟨_, rfl, rfl, by decide, by decide⟩

/-- C4 (amended): after every `load_data` invocation that returns a
`(success, message)` result, the working directory is restored; the
`.csv` files in the scratch directory are all deleted only when the load
succeeded — on a failed load the generated CSVs remain. -/
theorem load_data_cwd_and_cleanup (t : Bool) (e : LoaderEnv)
    (cwd : String) (fs : List String) (r : LoadResult)
    (h : load_data t e cwd fs = Except.ok r) :
    r.cwdFinal = cwd ∧
    (r.success = true → ∀ f ∈ r.files, pyEndsWith f ".csv" = false) := by
  unfold load_data at h
  cases t with
  | false =>
    simp only [Bool.false_eq_true, if_false] at h
    cases h
    exact load_phase_spec e cwd fs
  | true =>
    simp only [if_true] at h
    cases htr : truncate_tables e with
    | error m => rw [htr] at h; cases h
    | ok tr =>
      rw [htr] at h
      dsimp only at h
      by_cases hs : tr.success = true
      · rw [if_pos hs] at h
        cases h
        exact load_phase_spec e cwd fs
      · rw [if_neg hs] at h
        cases h
        exact ⟨rfl, by intro hfalse; cases hfalse⟩

/-- Witness for C4 (amended) on a successful load: the directory is
restored and no `.csv` survives. -/
theorem load_data_cwd_and_cleanup_witness :
    ∃ r, load_data true envOk "/w" ["old.csv"] = Except.ok r ∧
      r.cwdFinal = "/w" ∧
      (r.success = true → ∀ f ∈ r.files, pyEndsWith f ".csv" = false) := by
  refine ⟨_, rfl, ?_⟩
  exact
    ⟨(load_data_cwd_and_cleanup true envOk "/w" ["old.csv"] _ rfl).1,
     (load_data_cwd_and_cleanup true envOk "/w" ["old.csv"] _ rfl).2⟩

/-- C5 counterexample: with `DB_HOST` unset, `load_data(truncate=False)`
does not propagate the missing-variable error — `get_db_connection` is
called inside the `try` block, the `EnvironmentError` is caught, and a
`(False, message)` result is returned. -/
theorem load_data_no_truncate_catches_env_error_cex :
    load_data false envMissingHost "/w" [] = Except.ok
      { success := false
      , message :=
          "Data loading failed: Missing required environment variables: DB_HOST"
      , cwdFinal := "/w", files := generatedFiles
      , loadConnOpened := false, loadConnClosed := false
      , loadRolledBack := false } := rfl

/-- C5 (amended): when a required connection variable is unset (or
empty), `setup_database`, `truncate_tables`, and `load_data` with
`truncate=True` raise the missing-variable error before any connection
attempt and do not catch it; `load_data` with `truncate=False` catches it
inside its `try` block and returns a `(False, message)` result instead. -/
theorem missing_env_behavior (e : LoaderEnv) (cwd : String)
    (fs : List String) (hm : missing_vars e ≠ []) :
    setup_database e = Except.error (missing_vars_message e) ∧
    truncate_tables e = Except.error (missing_vars_message e) ∧
    load_data true e cwd fs = Except.error (missing_vars_message e) ∧
    ∃ r, load_data false e cwd fs = Except.ok r ∧ r.success = false := by
  have hg : get_db_connection e = Except.error (missing_vars_message e) := by
    simp [get_db_connection, hm]
  have hphase : (load_phase e cwd fs).success = false := by
    unfold load_phase
    by_cases hgen : e.genOk <;> simp [hgen, hg]
  refine ⟨by simp [setup_database, hg], by simp [truncate_tables, hg],
    by simp [load_data, truncate_tables, hg], load_phase e cwd fs, ?_, hphase⟩
  simp [load_data]

/-- Witness for C5 (amended) with `DB_HOST` unset. -/
theorem missing_env_behavior_witness :
    setup_database envMissingHost =
      Except.error (missing_vars_message envMissingHost) ∧
    truncate_tables envMissingHost =
      Except.error (missing_vars_message envMissingHost) ∧
    load_data true envMissingHost "/w" [] =
      Except.error (missing_vars_message envMissingHost) ∧
    ∃ r, load_data false envMissingHost "/w" [] = Except.ok r ∧
      r.success = false :=
  missing_env_behavior envMissingHost "/w" [] (by decide)

/-- C6: whenever the dispatched action is `setup_and_load` and
`setup_database` returns a failure result, the dispatcher responds with
HTTP 500 carrying the setup failure message and `load_data` is never
invoked. -/
theorem setup_and_load_short_circuit (r : Request) (e : LoaderEnv)
    (cwd : String) (fs : List String) (res : OpResult)
    (ha : getAction r = some "setup_and_load")
    (hs : setup_database e = Except.ok res)
    (hf : res.success = false) :
    main_dispatch r e cwd fs = Except.ok
      { statusCode := 500, status := "error"
      , message := res.message, loadInvoked := false } := by
  simp [main_dispatch, ha, hs, hf]

def requestSetupAndLoad : Request :=
  { args := [("action", "setup_and_load")], json := none }

/-- Witness for C6 with a concrete request and a DDL failure. -/
theorem setup_and_load_short_circuit_witness :
    main_dispatch requestSetupAndLoad envDdlFail "/w" [] = Except.ok
      { statusCode := 500, status := "error"
      , message := "Database setup failed: syntax error in ddl"
      , loadInvoked := false } :=
  setup_and_load_short_circuit requestSetupAndLoad envDdlFail "/w" []
    { success := false
    , message := "Database setup failed: syntax error in ddl"
    , rolledBack := true, committed := false, connClosed := true }
    rfl rfl rfl

/-- C7: for every request whose `action` (query string first, then JSON
body) is absent or not one of the three accepted values, the dispatcher
returns HTTP 400 with the one fixed error message; the response is
identical for every database environment and filesystem state, so no
database connection is attempted; and the query string takes precedence
over the JSON body when both carry an `action`. -/
theorem invalid_action_400 (r : Request) (e f : LoaderEnv)
    (cwd cwd2 : String) (fs fs2 : List String)
    (h1 : getAction r ≠ some "setup_db")
    (h2 : getAction r ≠ some "load_data")
    (h3 : getAction r ≠ some "setup_and_load") :
    main_dispatch r e cwd fs = Except.ok
      { statusCode := 400, status := "error"
      , message := invalid_action_message, loadInvoked := false } ∧
    main_dispatch r e cwd fs = main_dispatch r f cwd2 fs2 ∧
    (∀ qa ja, getAction
      { args := [("action", qa)], json := some [("action", ja)] } =
        some qa) := by
  have hmain : ∀ g cw fl, main_dispatch r g cw fl = Except.ok
      { statusCode := 400, status := "error"
      , message := invalid_action_message, loadInvoked := false } := by
    intro g cw fl
    simp [main_dispatch, h1, h2, h3]
  exact ⟨hmain e cwd fs, by rw [hmain, hmain], fun qa ja => rfl⟩

def requestFoo : Request := { args := [("action", "foo")], json := none }

/-- Witness for C7 at the unrecognized action `"foo"`. -/
theorem invalid_action_400_witness :
    main_dispatch requestFoo envOk "/w" [] = Except.ok
      { statusCode := 400, status := "error"
      , message := invalid_action_message, loadInvoked := false } ∧
    main_dispatch requestFoo envOk "/w" [] =
      main_dispatch requestFoo envCopyFail "/x" ["a.csv"] ∧
    (∀ qa ja, getAction
      { args := [("action", qa)], json := some [("action", ja)] } =
        some qa) :=
  invalid_action_400 requestFoo envOk envCopyFail "/w" "/x" [] ["a.csv"]
    (by decide) (by decide) (by decide)
